import Mathlib

/-!
Verification development for the llm-proxy-rs streaming protocol gateway.

Shallow embedding of the protocol-translation layer:
- backend (Bedrock ConverseStream) event vocabulary;
- the two streaming event converters
  (`anthropic-response/src/stream.rs` `EventConverter` and
   `chat/src/providers/anthropic.rs` `process_anthropic_stream`);
- the request normalizer conversions
  (`anthropic-request/src/{content/user_content.rs, content/assistant_content.rs,
    system.rs, tool.rs, message.rs, content.rs, image_source.rs,
    document_source.rs, tool_result_content.rs}`);
- the client-side tool-call accumulator (`client/src/processor/delta.rs`);
- the error mapper (`server/src/error.rs`) and the stream:false guard of the
  HTTP handlers (`server/src/handlers/{anthropic.rs, openai.rs}`).

Rust `Result<T, anyhow::Error>` is embedded as `Except String T`; error message
strings are kept only where a claim depends on them. `HashSet<i32>` is embedded
as a `List Int` of members (membership queries and insert/remove only). Side
effects (logging, the usage callback) are dropped; the nondeterministic UUID of
the synthesized thinking signature is a parameter of the transition function.
-/

namespace LLMProxy

/-! ## Backend (Bedrock ConverseStream) event vocabulary -/

/-- Backend reasoning-content delta fragments (`ReasoningContentBlockDelta`). -/
inductive ReasoningContentBlockDelta where
  | text (s : String)
  | redactedContent
  | sig (s : String)
  deriving DecidableEq

/-- Backend content-block delta payloads (`ContentBlockDelta` of the SDK). -/
inductive BedrockContentBlockDelta where
  | reasoningContent (r : ReasoningContentBlockDelta)
  | text (s : String)
  | toolUse (input : String)
  | other
  deriving DecidableEq

/-- Backend content-block start payloads (`ContentBlockStart` of the SDK). -/
inductive BedrockContentBlockStart where
  | toolUse (toolUseId name : String)
  | other
  deriving DecidableEq

/-- Backend stop reasons (`StopReason` of the SDK; `other` covers the
non-exhaustive remainder of the enum). -/
inductive StopReason where
  | endTurn
  | maxTokens
  | stopSequence
  | toolUse
  | other
  deriving DecidableEq

/-- Backend token usage (`TokenUsage`). -/
structure TokenUsage where
  inputTokens : Int
  outputTokens : Int
  totalTokens : Int
  deriving DecidableEq

/-- Backend stream events (`ConverseStreamOutput`). Indices are `i32` in the
source, embedded as `Int`. -/
inductive ConverseStreamOutput where
  | messageStart
  | contentBlockStart (contentBlockIndex : Int) (start : Option BedrockContentBlockStart)
  | contentBlockDelta (contentBlockIndex : Int) (delta : Option BedrockContentBlockDelta)
  | contentBlockStop (contentBlockIndex : Int)
  | messageStop (stopReason : StopReason)
  | metadata (usage : Option TokenUsage)
  | other
  deriving DecidableEq

/-! ## anthropic-response: client-facing delta vocabulary and its converter
(`anthropic-response/src/content_block_delta.rs`) -/

/-- Client-facing content-block delta (`ContentBlockDelta` enum of
`content_block_delta.rs` / `Delta` enum of `delta.rs`; the two are identical). -/
inductive ContentBlockDelta where
  | inputJsonDelta (fragment : String)
  | signatureDelta (s : String)
  | textDelta (text : String)
  | thinkingDelta (thinking : String)
  deriving DecidableEq

/-- Embeds `bedrock_content_block_delta_to_content_block_delta`
(`content_block_delta.rs` lines 19-42). -/
def bedrockContentBlockDeltaToContentBlockDelta :
    BedrockContentBlockDelta → Option ContentBlockDelta
  | .reasoningContent rc =>
    match rc with
    | .sig s => some (.signatureDelta s)
    | .text t => some (.thinkingDelta t)
    | _ => none
  | .text t => some (.textDelta t)
  | .toolUse input => some (.inputJsonDelta input)
  | .other => none

/-! ## anthropic-response: `EventConverter` (`anthropic-response/src/stream.rs`) -/

/-- Content blocks carried by client-facing events built in `stream.rs`
(`event.rs` `ContentBlock` builders used there). -/
inductive EventContentBlock where
  | text (text : String)
  | toolUse (id name : String)
  | thinking (thinking s : String)
  deriving DecidableEq

/-- Client-facing events built by `EventConverter` (`event.rs` `Event`;
only the fields populated in `stream.rs` are represented; the message-delta
usage field carries `output_tokens`). -/
inductive Event where
  | messageStart (id model : String)
  | contentBlockStart (contentBlock : EventContentBlock) (index : Int)
  | contentBlockDelta (delta : ContentBlockDelta) (index : Int)
  | contentBlockStop (index : Int)
  | messageDelta (stopReason : Option String) (outputTokens : Int)
  | messageStop
  deriving DecidableEq

/-- Mutable state of `EventConverter` (`stream.rs` lines 13-19). The usage
callback is a side effect and is not represented. -/
structure EventConverter where
  messageId : String
  model : String
  prevIsMessageStartOrContentBlockStop : Bool
  stopReason : Option String
  deriving DecidableEq

/-- `EventConverter::new` (`stream.rs` lines 21-34). -/
def EventConverter.new (messageId model : String) : EventConverter :=
  { messageId := messageId
    model := model
    prevIsMessageStartOrContentBlockStop := false
    stopReason := none }

/-- The content block synthesized for a deferred content-block-start
(`stream.rs` lines 90-107): note it carries the delta's own payload as the
initial content, and tool-use fragments synthesize nothing. -/
def EventConverter.synthStartBlock : ContentBlockDelta → Option EventContentBlock
  | .textDelta t => some (.text t)
  | .thinkingDelta t => some (.thinking t "")
  | .signatureDelta s => some (.thinking "" s)
  | .inputJsonDelta _ => none

/-- Embeds `EventConverter::convert` (`stream.rs` lines 36-173). Returns the
updated state and the emitted `(event_name, event)` list (`None` when the Rust
method returns `None`). In the `ContentBlockDelta` arm the Rust `?` operator
returns before the `previous_...` flag is written, so an unconvertible delta
leaves the state unchanged. -/
def EventConverter.convert (c : EventConverter) (o : ConverseStreamOutput) :
    EventConverter × Option (List (String × Event)) :=
  match o with
  | .messageStart =>
    ({ c with prevIsMessageStartOrContentBlockStop := true },
      some [("message_start", .messageStart c.messageId c.model)])
  | .contentBlockStart index start =>
    ({ c with prevIsMessageStartOrContentBlockStop := false },
      match start with
      | some (.toolUse toolUseId name) =>
        some [("content_block_start", .contentBlockStart (.toolUse toolUseId name) index)]
      | _ => none)
  | .contentBlockDelta index delta =>
    match delta.bind bedrockContentBlockDeltaToContentBlockDelta with
    | none => (c, none)
    | some d =>
      if c.prevIsMessageStartOrContentBlockStop then
        match EventConverter.synthStartBlock d with
        | some contentBlock =>
          ({ c with prevIsMessageStartOrContentBlockStop := false },
            some [("content_block_start", .contentBlockStart contentBlock index)])
        | none =>
          ({ c with prevIsMessageStartOrContentBlockStop := false },
            some [("content_block_delta", .contentBlockDelta d index)])
      else
        ({ c with prevIsMessageStartOrContentBlockStop := false },
          some [("content_block_delta", .contentBlockDelta d index)])
  | .contentBlockStop index =>
    ({ c with prevIsMessageStartOrContentBlockStop := true },
      some [("content_block_stop", .contentBlockStop index)])
  | .messageStop stopReason =>
    ({ c with stopReason :=
        match stopReason with
        | .endTurn => some "end_turn"
        | .maxTokens => some "max_tokens"
        | .stopSequence => some "stop_sequence"
        | .toolUse => some "tool_use"
        | .other => none },
      none)
  | .metadata usage =>
    (c, some
      [("message_delta",
         .messageDelta c.stopReason ((usage.map (·.outputTokens)).getD 0)),
       ("message_stop", .messageStop)])
  | .other => (c, none)

/-! ## chat/providers: `process_anthropic_stream`
(`chat/src/providers/anthropic.rs`) -/

/-- Anthropic usage tracker (`anthropic_response::Usage`; default all-zero). -/
structure Usage where
  inputTokens : Int
  outputTokens : Int
  deriving DecidableEq

/-- `ContentBlockStartData` of the anthropic-response events used by the
providers module. A tool-use start carries the fixed empty JSON object as
input, which is not represented separately. -/
inductive ContentBlockStartData where
  | text (text : String)
  | toolUse (id name : String)
  | thinking (thinking : String)
  deriving DecidableEq

/-- Client-facing stream events yielded by `process_anthropic_stream`
(`anthropic_response::StreamEvent`; the `message_start` carries the fixed
role/type fields and the running usage tracker). -/
inductive StreamEvent where
  | messageStart (id model : String) (usage : Usage)
  | contentBlockStart (index : Int) (contentBlock : ContentBlockStartData)
  | contentBlockDelta (index : Int) (delta : ContentBlockDelta)
  | contentBlockStop (index : Int)
  | messageDelta (stopReason : Option String) (usage : Usage)
  | messageStop
  deriving DecidableEq

/-- Per-stream mutable state of `process_anthropic_stream`
(`chat/src/providers/anthropic.rs` lines 31-35). The two `HashSet<i32>` are
embedded as lists of members. -/
structure AnthropicStreamState where
  usageTracker : Usage
  bedrockUsage : Option TokenUsage
  startedContentBlocks : List Int
  thinkingContentBlocks : List Int
  stopReason : Option String
  deriving DecidableEq

/-- Initial state of the stream loop. -/
def AnthropicStreamState.initial : AnthropicStreamState :=
  { usageTracker := ⟨0, 0⟩
    bedrockUsage := none
    startedContentBlocks := []
    thinkingContentBlocks := []
    stopReason := none }

/-- `HashSet::insert` on the member-list embedding. -/
def setInsert (s : List Int) (i : Int) : List Int :=
  if i ∈ s then s else i :: s

/-- `HashSet::remove` on the member-list embedding. -/
def setRemove (s : List Int) (i : Int) : List Int :=
  s.filter (· ≠ i)

/-- The stop-reason mapping of the providers module
(`chat/src/providers/anthropic.rs` lines 238-244): unlike `EventConverter`,
unknown reasons map to the string "unknown". -/
def providersMapStopReason : StopReason → String
  | .endTurn => "end_turn"
  | .toolUse => "tool_use"
  | .maxTokens => "max_tokens"
  | .stopSequence => "stop_sequence"
  | .other => "unknown"

/-- Embeds one iteration of the event loop of `process_anthropic_stream`
(`chat/src/providers/anthropic.rs` lines 52-296): given the state and one
backend event, returns the updated state, the client events yielded for it (in
order), and whether the loop breaks (terminal `Metadata` handling).
`sigPlaceholder` stands for the UUID-based generated signature
(`bedrock_proxy_sig_<uuid>`). SSE serialization never fails for these shapes
and is not represented. -/
def processAnthropicEvent (id model sigPlaceholder : String)
    (s : AnthropicStreamState) (o : ConverseStreamOutput) :
    AnthropicStreamState × List StreamEvent × Bool :=
  match o with
  | .messageStart =>
    (s, [.messageStart id model s.usageTracker], false)
  | .contentBlockStart index start =>
    ({ s with startedContentBlocks := setInsert s.startedContentBlocks index },
      [.contentBlockStart index
        (match start with
         | some (.toolUse toolUseId name) => .toolUse toolUseId name
         | _ => .text "")],
      false)
  | .contentBlockDelta index delta =>
    let (s, synthEvents) :=
      if index ∈ s.startedContentBlocks then (s, [])
      else
        match delta with
        | some (.reasoningContent _) =>
          ({ s with
              startedContentBlocks := setInsert s.startedContentBlocks index
              thinkingContentBlocks := setInsert s.thinkingContentBlocks index },
            [StreamEvent.contentBlockStart index (.thinking "")])
        | _ =>
          ({ s with startedContentBlocks := setInsert s.startedContentBlocks index },
            [StreamEvent.contentBlockStart index (.text "")])
    let deltaEvent : Option ContentBlockDelta :=
      match delta with
      | some (.text t) => some (.textDelta t)
      | some (.toolUse input) => some (.inputJsonDelta input)
      | some (.reasoningContent (.text t)) => some (.thinkingDelta t)
      | _ => none
    (s,
      synthEvents ++
        (match deltaEvent with
         | some d => [StreamEvent.contentBlockDelta index d]
         | none => []),
      false)
  | .contentBlockStop index =>
    if index ∈ s.thinkingContentBlocks then
      ({ s with thinkingContentBlocks := setRemove s.thinkingContentBlocks index },
        [.contentBlockDelta index (.signatureDelta sigPlaceholder),
         .contentBlockStop index],
        false)
    else
      (s, [.contentBlockStop index], false)
  | .messageStop stopReason =>
    ({ s with stopReason := some (providersMapStopReason stopReason) }, [], false)
  | .metadata usage =>
    let s :=
      match usage with
      | some u =>
        { s with
            usageTracker := ⟨u.inputTokens, u.outputTokens⟩
            bedrockUsage := some u }
      | none => s
    match s.stopReason with
    | some r =>
      ({ s with stopReason := none },
        [.messageDelta (some r) s.usageTracker, .messageStop], true)
    | none => (s, [], false)
  | .other => (s, [], false)

/-! ## Request side: JSON values, base64, sources
(`anthropic-request/src/{image_source.rs, document_source.rs}`) -/

/-- Shallow model of `serde_json::Value` / smithy `Document`. The gateway
passes these through opaquely (`value_to_document` in `common/src/lib.rs` is a
shape-preserving transcoding and is embedded as the identity). -/
inductive JsonValue where
  | null
  | bool (b : Bool)
  | num (n : Int)
  | str (s : String)
  | arr (xs : List JsonValue)
  | obj (fields : List (String × JsonValue))

/-- `value_to_document` (`common/src/lib.rs`): shape-preserving, embedded as
the identity on the shared JSON model. -/
def valueToDocument (v : JsonValue) : JsonValue := v

/-- Value of one base64 alphabet character (STANDARD alphabet). -/
def base64CharVal (c : Char) : Option Nat :=
  if 'A' ≤ c ∧ c ≤ 'Z' then some (c.toNat - 65)
  else if 'a' ≤ c ∧ c ≤ 'z' then some (c.toNat - 97 + 26)
  else if '0' ≤ c ∧ c ≤ '9' then some (c.toNat - 48 + 52)
  else if c = '+' then some 62
  else if c = '/' then some 63
  else none

/-- Decode a base64 character list, 4 characters to 3 bytes, requiring
canonical padding (the behavior of `general_purpose::STANDARD.decode`). -/
def base64DecodeGroups : List Char → Option (List Nat)
  | [] => some []
  | c1 :: c2 :: c3 :: c4 :: rest => do
    let v1 ← base64CharVal c1
    let v2 ← base64CharVal c2
    if c3 = '=' then
      if c4 = '=' ∧ rest = [] then
        if v2 % 16 = 0 then some [v1 * 4 + v2 / 16] else none
      else none
    else do
      let v3 ← base64CharVal c3
      if c4 = '=' then
        if rest = [] ∧ v3 % 4 = 0 then
          some [v1 * 4 + v2 / 16, v2 % 16 * 16 + v3 / 4]
        else none
      else do
        let v4 ← base64CharVal c4
        let tail ← base64DecodeGroups rest
        some ([v1 * 4 + v2 / 16, v2 % 16 * 16 + v3 / 4, v3 % 4 * 64 + v4] ++ tail)
  | _ => none

/-- `general_purpose::STANDARD.decode` embedded over byte lists. -/
def base64Decode (s : String) : Option (List Nat) :=
  base64DecodeGroups s.toList

/-- `CacheControl` (`anthropic-request/src/cache_control.rs`): a marker whose
only field is the `type` string. -/
structure CacheControl where
  cacheControlType : String
  deriving DecidableEq

/-- `TryFrom<&CacheControl> for CachePointBlock` (`cache_control.rs`): the
builder always succeeds (the `type` field is set), so this is infallible; the
resulting cache point carries no data. -/
def cacheControlToCachePoint (_ : CacheControl) : Except String Unit := .ok ()

/-- Backend image formats (`ImageFormat`). -/
inductive ImageFormat where
  | gif | jpeg | png | webp
  deriving DecidableEq

/-- Backend document formats (`DocumentFormat`). -/
inductive DocumentFormat where
  | doc | pdf | xls | xlsx | docx | csv | html | md | txt
  deriving DecidableEq

/-- Backend `ImageBlock` (format plus decoded bytes). -/
structure ImageBlock where
  format : ImageFormat
  bytes : List Nat
  deriving DecidableEq

/-- Backend `DocumentBlock` (format, name, decoded bytes). -/
structure DocumentBlock where
  format : DocumentFormat
  name : String
  bytes : List Nat
  deriving DecidableEq

/-- `ImageSource` (`image_source.rs`). -/
inductive ImageSource where
  | base64 (mediaType data : String)

/-- The image media-type table of `image_source.rs` lines 19-25. -/
def imageFormatOfMediaType (mediaType : String) : Option ImageFormat :=
  if mediaType = "image/gif" then some .gif
  else if mediaType = "image/jpeg" then some .jpeg
  else if mediaType = "image/png" then some .png
  else if mediaType = "image/webp" then some .webp
  else none

/-- Embeds `TryFrom<&ImageSource> for ImageBlock` (`image_source.rs` 13-36). -/
def imageBlockTryFrom : ImageSource → Except String ImageBlock
  | .base64 mediaType data =>
    match imageFormatOfMediaType mediaType with
    | none => .error ("Unsupported image media type: " ++ mediaType)
    | some format =>
      match base64Decode data with
      | none => .error "invalid base64"
      | some bytes => .ok ⟨format, bytes⟩

/-- `DocumentSource` (`document_source.rs`). -/
inductive DocumentSource where
  | base64 (mediaType data : String)

/-- The document media-type table of `document_source.rs` lines 21-36. -/
def documentFormatOfMediaType (mediaType : String) : Option DocumentFormat :=
  if mediaType = "application/msword" then some .doc
  else if mediaType = "application/pdf" then some .pdf
  else if mediaType = "application/vnd.ms-excel" then some .xls
  else if mediaType = "application/vnd.openxmlformats-officedocument.spreadsheetml.sheet"
    then some .xlsx
  else if mediaType = "application/vnd.openxmlformats-officedocument.wordprocessingml.document"
    then some .docx
  else if mediaType = "text/csv" then some .csv
  else if mediaType = "text/html" then some .html
  else if mediaType = "text/markdown" then some .md
  else if mediaType = "text/plain" then some .txt
  else none

/-- Embeds `TryFrom<&DocumentSource> for DocumentBlock`
(`document_source.rs` 15-48); the block name is fixed to "document". -/
def documentBlockTryFrom : DocumentSource → Except String DocumentBlock
  | .base64 mediaType data =>
    match documentFormatOfMediaType mediaType with
    | none => .error ("Unsupported document media type: " ++ mediaType)
    | some format =>
      match base64Decode data with
      | none => .error "invalid base64"
      | some bytes => .ok ⟨format, "document", bytes⟩

/-! ## Request side: tool-result content
(`anthropic-request/src/tool_result_content.rs`) -/

/-- Backend `ToolResultContentBlock`. -/
inductive ToolResultContentBlock where
  | document (d : DocumentBlock)
  | image (i : ImageBlock)
  | text (t : String)
  | json (v : JsonValue)

/-- `ToolResultContent` (`tool_result_content.rs`); `unknown` is the
`#[serde(other)]` catch-all. -/
inductive ToolResultContent where
  | document (source : DocumentSource)
  | image (source : ImageSource)
  | text (text : String)
  | toolReference (toolName : String)
  | unknown

/-- `ToolResultContents` (`tool_result_content.rs`): string or array. -/
inductive ToolResultContents where
  | str (s : String)
  | array (xs : List ToolResultContent)

/-- Embeds `TryFrom<&ToolResultContent> for Option<ToolResultContentBlock>`
(`tool_result_content.rs` 30-53). A tool reference is serialized and carried
as a JSON document; `unknown` drops to `none`. -/
def toolResultContentTryFrom : ToolResultContent →
    Except String (Option ToolResultContentBlock)
  | .document source => do
    let d ← documentBlockTryFrom source
    .ok (some (.document d))
  | .image source => do
    let i ← imageBlockTryFrom source
    .ok (some (.image i))
  | .text t => .ok (some (.text t))
  | .toolReference toolName =>
    .ok (some (.json (valueToDocument
      (.obj [("type", .str "tool_reference"), ("tool_name", .str toolName)]))))
  | .unknown => .ok none

/-- Embeds `TryFrom<&ToolResultContents> for Vec<ToolResultContentBlock>`
(`tool_result_content.rs` 55-68). -/
def toolResultContentsTryFrom : ToolResultContents →
    Except String (List ToolResultContentBlock)
  | .str s => .ok [.text s]
  | .array a => do
    let l ← a.mapM toolResultContentTryFrom
    .ok (l.filterMap id)

/-! ## Request side: user content
(`anthropic-request/src/content/user_content.rs`) -/

/-- Backend `ToolResultStatus`. -/
inductive ToolResultStatus where
  | success | error

/-- Backend `ToolResultBlock`. -/
structure ToolResultBlock where
  toolUseId : String
  content : List ToolResultContentBlock
  status : Option ToolResultStatus

/-- Backend `ToolUseBlock`. -/
structure ToolUseBlock where
  toolUseId : String
  name : String
  input : JsonValue

/-- Backend `ContentBlock` (the Bedrock content vocabulary); a reasoning
content block is a reasoning text with an optional signature. -/
inductive BedrockContentBlock where
  | cachePoint
  | document (d : DocumentBlock)
  | image (i : ImageBlock)
  | reasoningContent (text : String) (s : Option String)
  | text (t : String)
  | toolResult (t : ToolResultBlock)
  | toolUse (t : ToolUseBlock)

/-- `UserContent` (`user_content.rs` 18-40). -/
inductive UserContent where
  | text (cacheControl : Option CacheControl) (text : String)
  | image (source : ImageSource)
  | document (source : DocumentSource)
  | toolResult (cacheControl : Option CacheControl) (content : ToolResultContents)
      (isError : Option Bool) (toolUseId : String)

/-- `UserContents` (`user_content.rs` 11-16): array or string. -/
inductive UserContents where
  | array (xs : List UserContent)
  | str (s : String)

/-- Embeds `TryFrom<&UserContent> for Option<Vec<ContentBlock>>`
(`user_content.rs` lines 60-117). -/
def userContentTryFrom : UserContent → Except String (Option (List BedrockContentBlock))
  | .text cacheControl text =>
    match cacheControl with
    | some cc => do
      let _ ← cacheControlToCachePoint cc
      .ok (some [.text text, .cachePoint])
    | none => .ok (some [.text text])
  | .image source => do
    let i ← imageBlockTryFrom source
    .ok (some [.image i])
  | .document source => do
    let documentBlock ← documentBlockTryFrom source
    .ok (some [.document documentBlock, .text " "])
  | .toolResult cacheControl content isError toolUseId => do
    let contentBlocks ← toolResultContentsTryFrom content
    let toolResultBlock : ToolResultBlock :=
      { toolUseId := toolUseId
        content := contentBlocks
        status := isError.map (fun e => if e then .error else .success) }
    match cacheControl with
    | some cc => do
      let _ ← cacheControlToCachePoint cc
      .ok (some [.toolResult toolResultBlock, .cachePoint])
    | none => .ok (some [.toolResult toolResultBlock])

/-- Embeds `TryFrom<&UserContents> for Vec<ContentBlock>`
(`user_content.rs` lines 42-57): per-block translation, then flatten; no
reordering of any kind is performed. -/
def userContentsTryFrom : UserContents → Except String (List BedrockContentBlock)
  | .str s => .ok [.text s]
  | .array arr => do
    let l ← arr.mapM userContentTryFrom
    .ok ((l.filterMap id).flatten)

/-! ## Request side: system blocks (`anthropic-request/src/system.rs`) -/

/-- Backend `SystemContentBlock`. -/
inductive SystemContentBlock where
  | text (t : String)
  | cachePoint

/-- `System` (`system.rs` 13-22): only a text variant exists. -/
inductive System where
  | text (text : String) (cacheControl : Option CacheControl)

/-- `Systems` (`system.rs` 6-11): string or array. -/
inductive Systems where
  | str (s : String)
  | array (xs : List System)

/-- Embeds `TryFrom<&System> for Vec<SystemContentBlock>`
(`system.rs` lines 24-44). -/
def systemTryFrom : System → Except String (List SystemContentBlock)
  | .text text cacheControl =>
    match cacheControl with
    | some cc => do
      let _ ← cacheControlToCachePoint cc
      .ok [.text text, .cachePoint]
    | none => .ok [.text text]

/-- Embeds `TryFrom<&Systems> for Vec<SystemContentBlock>`
(`system.rs` lines 46-61). -/
def systemsTryFrom : Systems → Except String (List SystemContentBlock)
  | .str s => .ok [.text s]
  | .array a => do
    let l ← a.mapM systemTryFrom
    .ok l.flatten

/-! ## Request side: tool definitions (`anthropic-request/src/tool.rs`) -/

/-- `Tool` (`tool.rs` 10-17). -/
structure Tool where
  cacheControl : Option CacheControl
  description : String
  inputSchema : JsonValue
  name : String

/-- Backend `Tool` (tool spec or cache point). -/
inductive BedrockTool where
  | toolSpec (name : String) (description : Option String) (inputSchema : JsonValue)
  | cachePoint

/-- Embeds `TryFrom<&Tool> for Vec<BedrockTool>` (`tool.rs` lines 19-38):
the spec (with the description dropped when empty), then a cache point when
the tool carries a cache-control marker. -/
def toolTryFrom (tool : Tool) : Except String (List BedrockTool) := do
  let tools : List BedrockTool :=
    [.toolSpec tool.name
      (if tool.description.isEmpty then none else some tool.description)
      (valueToDocument tool.inputSchema)]
  match tool.cacheControl with
  | some cc => do
    let _ ← cacheControlToCachePoint cc
    .ok (tools ++ [.cachePoint])
  | none => .ok tools

/-! ## Request side: assistant content
(`anthropic-request/src/content/assistant_content.rs`) -/

/-- `AssistantContent` (`assistant_content.rs` 16-33). -/
inductive AssistantContent where
  | text (text : String) (cacheControl : Option CacheControl)
  | toolUse (id name : String) (input : JsonValue)
  | thinking (thinking s : String)

/-- `AssistantContents` (`assistant_content.rs` 9-14): array or string. -/
inductive AssistantContents where
  | array (xs : List AssistantContent)
  | str (s : String)

/-- Embeds `TryFrom<&AssistantContent> for Vec<ContentBlock>`
(`assistant_content.rs` lines 64-109): a thinking block is translated into a
backend reasoning-content block carrying its text and signature. -/
def assistantContentTryFrom : AssistantContent → Except String (List BedrockContentBlock)
  | .text text cacheControl =>
    match cacheControl with
    | some cc => do
      let _ ← cacheControlToCachePoint cc
      .ok [.text text, .cachePoint]
    | none => .ok [.text text]
  | .toolUse id name input =>
    .ok [.toolUse ⟨id, name, valueToDocument input⟩]
  | .thinking thinking s =>
    .ok [.reasoningContent thinking (some s)]

/-- Whether a backend content block is a reasoning-content block. -/
def BedrockContentBlock.isReasoningContent : BedrockContentBlock → Bool
  | .reasoningContent _ _ => true
  | _ => false

/-- Embeds `TryFrom<&AssistantContents> for Vec<ContentBlock>`
(`assistant_content.rs` lines 35-62): per-block translation, then the
reasoning-content blocks are partitioned to the front. -/
def assistantContentsTryFrom : AssistantContents → Except String (List BedrockContentBlock)
  | .str s => .ok [.text s]
  | .array arr => do
    let l ← arr.mapM assistantContentTryFrom
    let allContentBlocks := l.flatten
    let (reasoningContentBlocks, otherContentBlocks) :=
      allContentBlocks.partition (·.isReasoningContent)
    .ok (reasoningContentBlocks ++ otherContentBlocks)

/-! ## Request side: the `content.rs` block model and the `message.rs`
conversion (`anthropic-request/src/{content.rs, message.rs}`) -/

/-- `DocumentSource` struct of `content.rs` (lines 65-71): raw base64 data, a
media type and a source-type tag. -/
structure ContentDocumentSource where
  data : String
  mediaType : String
  sourceType : String

/-- `ContentBlock` of `content.rs` (lines 21-63): the request-side content
model used by the `message.rs` conversion. -/
inductive RequestContentBlock where
  | text (text : String) (cacheControl : Option CacheControl)
  | image (source : ImageSource) (cacheControl : Option CacheControl)
  | document (source : ContentDocumentSource) (title : Option String)
      (cacheControl : Option CacheControl)
  | toolUse (id name : String) (input : JsonValue)
  | toolResult (toolUseId : String) (content : ToolResultContents) (isError : Option Bool)
  | thinking (thinking : String) (s : Option String)

/-- The document media-type table inlined in `content.rs` (lines 191-211);
the same set as `document_source.rs`. -/
def contentDocumentFormatOfMediaType (mediaType : String) : Option DocumentFormat :=
  if mediaType = "application/pdf" then some .pdf
  else if mediaType = "text/csv" then some .csv
  else if mediaType = "application/msword" then some .doc
  else if mediaType = "application/vnd.openxmlformats-officedocument.wordprocessingml.document"
    then some .docx
  else if mediaType = "application/vnd.ms-excel" then some .xls
  else if mediaType = "application/vnd.openxmlformats-officedocument.spreadsheetml.sheet"
    then some .xlsx
  else if mediaType = "text/html" then some .html
  else if mediaType = "text/plain" then some .txt
  else if mediaType = "text/markdown" then some .md
  else none

/-- Embeds `TryFrom<&ContentBlock> for BedrockContentBlock`
(`content.rs` lines 122-282). The image arm goes through an Option-returning
source conversion; the document arm decodes, maps the media type and builds a
block whose name is the title (the builder fails when no title is supplied);
the tool-result content conversion is the fallible conversion of
`tool_result_content.rs`; a thinking block becomes a reasoning-content
block. -/
def requestContentBlockTryFrom : RequestContentBlock → Except String BedrockContentBlock
  | .text text _ => .ok (.text text)
  | .image source _ =>
    match (imageBlockTryFrom source).toOption with
    | some imageBlock => .ok (.image imageBlock)
    | none => .error "Failed to convert image source"
  | .document source title _ => do
    let bytes ←
      match base64Decode source.data with
      | some bytes => Except.ok bytes
      | none => Except.error "invalid base64"
    let format ←
      match contentDocumentFormatOfMediaType source.mediaType with
      | some f => Except.ok f
      | none => Except.error ("Unsupported document format: " ++ source.mediaType)
    match title with
    | some name => .ok (.document ⟨format, name, bytes⟩)
    | none => .error "document name missing"
  | .toolUse id name input =>
    .ok (.toolUse ⟨id, name, valueToDocument input⟩)
  | .toolResult toolUseId content isError => do
    let contentBlocks ← toolResultContentsTryFrom content
    .ok (.toolResult
      { toolUseId := toolUseId
        content := contentBlocks
        status := if isError = some true then some .error else none })
  | .thinking thinking s =>
    .ok (.reasoningContent thinking s)

/-- Whether a `content.rs` block is a thinking block (the skip test of
`message.rs` line 53). -/
def RequestContentBlock.isThinking : RequestContentBlock → Bool
  | .thinking _ _ => true
  | _ => false

/-- Whether a `content.rs` block carries a cache-control marker per the check
of `message.rs` lines 62-67 (only text, image and document carry one there). -/
def RequestContentBlock.hasCacheControl : RequestContentBlock → Bool
  | .text _ cc => cc.isSome
  | .image _ cc => cc.isSome
  | .document _ _ cc => cc.isSome
  | _ => false

/-- `Role` (`message.rs` 16-21). -/
inductive Role where
  | user | assistant

/-- `Content` (`message.rs` 23-28): string or block list. -/
inductive MessageContent where
  | str (s : String)
  | blocks (bs : List RequestContentBlock)

/-- `Message` struct (`message.rs` 10-14). -/
structure Message where
  role : Role
  content : MessageContent

/-- Backend `ConversationRole`. -/
inductive ConversationRole where
  | user | assistant

/-- Backend `Message`. -/
structure BedrockMessage where
  role : ConversationRole
  content : List BedrockContentBlock

/-- One iteration of the block-list translation loop of `message.rs` lines
51-77: thinking blocks are skipped; a block whose conversion fails is silently
dropped; a converted block with a cache-control marker is followed by a cache
point. -/
def messageBlockStep (result : List BedrockContentBlock) (block : RequestContentBlock) :
    List BedrockContentBlock :=
  if block.isThinking then result
  else
    match requestContentBlockTryFrom block with
    | .ok bedrockBlock =>
      let result := result ++ [bedrockBlock]
      if block.hasCacheControl then result ++ [.cachePoint] else result
    | .error _ => result

/-- The block-list translation loop of `message.rs` lines 49-79. -/
def messageBlocksToBedrock (blocks : List RequestContentBlock) : List BedrockContentBlock :=
  blocks.foldl messageBlockStep []

/-- Embeds `TryFrom<&Message> for BedrockMessage` (`message.rs` lines 41-87);
the final builder always succeeds (role and content are both set). -/
def messageTryFrom (message : Message) : Except String BedrockMessage :=
  let role : ConversationRole :=
    match message.role with
    | .user => .user
    | .assistant => .assistant
  let contentBlocks :=
    match message.content with
    | .str s => [BedrockContentBlock.text s]
    | .blocks blocks => messageBlocksToBedrock blocks
  .ok ⟨role, contentBlocks⟩

/-! ## OpenAI response side: `tool_use_block_delta_to_tool_call`
(`response/src/lib.rs`) and the client tool-call accumulator
(`client/src/processor/delta.rs`) -/

/-- `Function` of `response/src/lib.rs` (lines 56-62). -/
structure ResponseFunction where
  name : Option String
  arguments : Option String
  deriving DecidableEq

/-- `ToolCall` of `response/src/lib.rs` (lines 44-54). -/
structure ResponseToolCall where
  id : Option String
  toolType : String
  function : Option ResponseFunction
  index : Option Int
  deriving DecidableEq

/-- Embeds `tool_use_block_delta_to_tool_call` (`response/src/lib.rs` lines
201-214): the raw input fragment is forwarded unconditionally, with no id and
no name. -/
def toolUseBlockDeltaToToolCall (input : String) (index : Int) : ResponseToolCall :=
  { id := none
    toolType := "function"
    function := some { name := none, arguments := some input }
    index := some index }

/-- `FunctionCall` of `request/src/tool.rs` (default: empty strings). -/
structure FunctionCall where
  name : String
  arguments : String
  deriving DecidableEq

/-- `ToolCall` of `request/src/tool.rs` (default: empty strings). -/
structure RequestToolCall where
  id : String
  toolType : String
  function : FunctionCall
  deriving DecidableEq

/-- `new_request_tool_call` (`client/src/processor/delta.rs` lines 74-79):
the given id, all other fields defaulted. -/
def newRequestToolCall (id : String) : RequestToolCall :=
  { id := id, toolType := "", function := { name := "", arguments := "" } }

/-- The per-fragment update applied to the current call
(`client/src/processor/delta.rs` lines 99-107): a supplied name overwrites
the name, supplied arguments are appended to the accumulated arguments. -/
def applyFragment (toolCall : RequestToolCall) (function : Option ResponseFunction) :
    RequestToolCall :=
  match function with
  | none => toolCall
  | some f =>
    let toolCall :=
      match f.name with
      | some n => { toolCall with function := { toolCall.function with name := n } }
      | none => toolCall
    match f.arguments with
    | some args =>
      { toolCall with function :=
          { toolCall.function with arguments := toolCall.function.arguments ++ args } }
    | none => toolCall

/-- One iteration of the accumulation loop of
`response_tool_calls_to_request_tool_calls` (`client/src/processor/delta.rs`
lines 87-108): a fragment with a fresh non-null id opens a new call; the
fragment then updates the last call, and an empty call list is the
missing-ID error. -/
def accStep (st : List RequestToolCall × Option String) (c : ResponseToolCall) :
    Except String (List RequestToolCall × Option String) :=
  let (calls, currentId) := st
  let (calls, currentId) :=
    match c.id with
    | some i =>
      if currentId = some i then (calls, currentId)
      else (calls ++ [newRequestToolCall i], some i)
    | none => (calls, currentId)
  match calls.getLast? with
  | none => .error "Tool call chunk missing required ID"
  | some last => .ok (calls.dropLast ++ [applyFragment last c.function], currentId)

/-- The test `arguments.trim().is_empty()` of the source: a string trims to
empty exactly when every character is whitespace (so also when it is empty). -/
def trimIsEmpty (s : String) : Bool :=
  s.toList.all Char.isWhitespace

/-- The completion defaulting of `client/src/processor/delta.rs` lines
110-114: empty-or-all-whitespace accumulated arguments become the literal
two-character object string. -/
def finalizeToolCall (toolCall : RequestToolCall) : RequestToolCall :=
  if trimIsEmpty toolCall.function.arguments then
    { toolCall with function := { toolCall.function with arguments := "\x7b\x7d" } }
  else toolCall

/-- Embeds `response_tool_calls_to_request_tool_calls`
(`client/src/processor/delta.rs` lines 81-117). -/
def responseToolCallsToRequestToolCalls (responseToolCalls : List ResponseToolCall) :
    Except String (List RequestToolCall) := do
  let (calls, _) ← responseToolCalls.foldlM accStep ([], none)
  .ok (calls.map finalizeToolCall)

/-! ## Server: error mapper and handler guards
(`server/src/error.rs`, `server/src/handlers/{anthropic.rs, openai.rs}`) -/

/-- A backend invocation failure as observed by `AppError::from`
(`server/src/error.rs` lines 16-46): the raw upstream HTTP status when the
error wraps a service-level SDK error response, the structured message of the
service error metadata when present, and the generic `to_string` text. -/
structure BackendFailure where
  upstreamStatus : Option Nat
  serviceMessage : Option String
  text : String
  deriving DecidableEq

/-- `StatusCode::from_u16`: accepts only three-digit codes. -/
def statusCodeFromU16 (n : Nat) : Option Nat :=
  if 100 ≤ n ∧ n ≤ 999 then some n else none

/-- Embeds `AppError::from` (`server/src/error.rs` lines 16-46): the upstream
status when present and valid, else 500; the structured service message when
present, else the generic text. -/
def appErrorFrom (e : BackendFailure) : Nat × String :=
  ((e.upstreamStatus.bind statusCodeFromU16).getD 500,
   (e.serviceMessage).getD e.text)

/-- Embeds the stream:false guard of `v1_messages`
(`server/src/handlers/anthropic.rs` lines 25-28): when the payload sets
`stream` to `false` the handler returns early — before the backend provider is
invoked — with a plain `anyhow` error converted through `AppError::from`
(carrying no SDK status and no service message). `.ok ()` models the handler
proceeding to the backend call. -/
def v1MessagesStreamCheck (stream : Option Bool) : Except (Nat × String) Unit :=
  if stream = some false then
    .error (appErrorFrom { upstreamStatus := none, serviceMessage := none,
                           text := "Stream is set to false" })
  else .ok ()

/-- Embeds the identical stream:false guard of `chat_completions`
(`server/src/handlers/openai.rs` lines 23-26). -/
def chatCompletionsStreamCheck (stream : Option Bool) : Except (Nat × String) Unit :=
  if stream = some false then
    .error (appErrorFrom { upstreamStatus := none, serviceMessage := none,
                           text := "Stream is set to false" })
  else .ok ()

/-! ## Claim C1: synthesis of content-block starts on the first delta -/

/-- Inserting a member makes it a member. -/
theorem mem_setInsert_self (s : List Int) (i : Int) : i ∈ setInsert s i := by
  unfold setInsert
  split
  · assumption
  · exact List.mem_cons_self i s

/-- C1 (counterexample): a reasoning-signature delta at an index with no prior
start makes the providers stream loop emit only the synthetic thinking
content-block-start — the translated signature-delta event the claim promises
is not emitted (a reasoning-signature delta is translated to no delta event
there). -/
theorem C1_counterexample :
    (processAnthropicEvent "msg_0" "model" "sig_0" AnthropicStreamState.initial
        (.contentBlockDelta 0 (some (.reasoningContent (.sig "s"))))).2.1 =
      [StreamEvent.contentBlockStart 0 (.thinking "")] ∧
    StreamEvent.contentBlockDelta 0 (.signatureDelta "s") ∉
      (processAnthropicEvent "msg_0" "model" "sig_0" AnthropicStreamState.initial
        (.contentBlockDelta 0 (some (.reasoningContent (.sig "s"))))).2.1 := by
  decide

/-- C1 (amended): for a backend content-block delta at an index not yet marked
started, the providers stream loop first emits a synthetic content-block-start
with empty initial content — of kind thinking exactly when the delta payload
is a reasoning-content delta, of kind text otherwise — and marks the index
started (and, for reasoning deltas, as a thinking index); it then emits the
translated delta event for text, tool-use-input and reasoning-text deltas,
while reasoning-signature, redacted and unrecognized deltas produce no delta
event. -/
theorem C1_synthetic_start_then_delta (id model sig : String)
    (s : AnthropicStreamState) (i : Int) (d : Option BedrockContentBlockDelta)
    (h : i ∉ s.startedContentBlocks) :
    (processAnthropicEvent id model sig s (.contentBlockDelta i d)).2.1 =
      (match d with
       | some (.reasoningContent _) => [StreamEvent.contentBlockStart i (.thinking "")]
       | _ => [StreamEvent.contentBlockStart i (.text "")]) ++
      (match d with
       | some (.text t) => [StreamEvent.contentBlockDelta i (.textDelta t)]
       | some (.toolUse input) => [StreamEvent.contentBlockDelta i (.inputJsonDelta input)]
       | some (.reasoningContent (.text t)) =>
         [StreamEvent.contentBlockDelta i (.thinkingDelta t)]
       | _ => []) ∧
    i ∈ (processAnthropicEvent id model sig s (.contentBlockDelta i d)).1.startedContentBlocks ∧
    (∀ r, d = some (.reasoningContent r) →
      i ∈ (processAnthropicEvent id model sig s
            (.contentBlockDelta i d)).1.thinkingContentBlocks) := by
  rcases d with _ | d
  · simp [processAnthropicEvent, h, mem_setInsert_self]
  · rcases d with r | t | input | _ <;>
      first
      | (rcases r with t | _ | t <;> simp [processAnthropicEvent, h, mem_setInsert_self])
      | simp [processAnthropicEvent, h, mem_setInsert_self]

/-- C1 (witness). -/
theorem C1_witness :
    (processAnthropicEvent "msg_0" "model" "sig_0" AnthropicStreamState.initial
        (.contentBlockDelta 0 (some (.text "hi")))).2.1 =
      [StreamEvent.contentBlockStart 0 (.text ""),
       StreamEvent.contentBlockDelta 0 (.textDelta "hi")] ∧
    (0 : Int) ∈ (processAnthropicEvent "msg_0" "model" "sig_0"
        AnthropicStreamState.initial
        (.contentBlockDelta 0 (some (.text "hi")))).1.startedContentBlocks := by
  have h := C1_synthetic_start_then_delta "msg_0" "model" "sig_0"
    AnthropicStreamState.initial 0 (some (.text "hi")) (by decide)
  exact ⟨h.1, h.2.1⟩

/-! ## Claim C2: deferred stop reason and terminal event pair -/

/-- Whether a backend event is a Metadata event. -/
def ConverseStreamOutput.isMetadata : ConverseStreamOutput → Bool
  | .metadata _ => true
  | _ => false

/-- The providers stream loop can emit a message-stopped event only while
processing a Metadata backend event. -/
theorem providers_message_stop_only_on_metadata (id model sig : String)
    (s : AnthropicStreamState) (o : ConverseStreamOutput)
    (h : o.isMetadata = false) :
    StreamEvent.messageStop ∉ (processAnthropicEvent id model sig s o).2.1 := by
  rcases o with _ | ⟨i, st⟩ | ⟨i, d⟩ | i | r | u | _
  · simp [processAnthropicEvent]
  · simp [processAnthropicEvent]
  · rcases d with _ | d
    · by_cases hm : i ∈ s.startedContentBlocks <;> simp [processAnthropicEvent, hm]
    · rcases d with r | t | input | _ <;>
        (try rcases r with t | _ | t) <;>
        by_cases hm : i ∈ s.startedContentBlocks <;>
        simp [processAnthropicEvent, hm]
  · by_cases hm : i ∈ s.thinkingContentBlocks <;> simp [processAnthropicEvent, hm]
  · simp [processAnthropicEvent]
  · simp [ConverseStreamOutput.isMetadata] at h
  · simp [processAnthropicEvent]

/-- `EventConverter` can emit a message-stopped event only while processing a
Metadata backend event. -/
theorem converter_message_stop_only_on_metadata (c : EventConverter)
    (o : ConverseStreamOutput) (h : o.isMetadata = false)
    (l : List (String × Event)) (hl : (EventConverter.convert c o).2 = some l) :
    ("message_stop", Event.messageStop) ∉ l := by
  rcases o with _ | ⟨i, st⟩ | ⟨i, d⟩ | i | r | u | _
  · simp [EventConverter.convert] at hl
    simp [← hl]
  · rcases st with _ | st
    · simp [EventConverter.convert] at hl
    · rcases st with ⟨tid, n⟩ | _
      · simp [EventConverter.convert] at hl
        simp [← hl]
      · simp [EventConverter.convert] at hl
  · rcases hbd : d.bind bedrockContentBlockDeltaToContentBlockDelta with _ | cd
    · simp [EventConverter.convert, hbd] at hl
    · by_cases hp : c.prevIsMessageStartOrContentBlockStop <;>
        rcases cd with f | sg | t | t <;>
        simp [EventConverter.convert, hbd, hp, EventConverter.synthStartBlock] at hl <;>
        simp [← hl]
  · simp [EventConverter.convert] at hl
    simp [← hl]
  · simp [EventConverter.convert] at hl
  · simp [ConverseStreamOutput.isMetadata] at h
  · simp [EventConverter.convert] at hl

/-- C2 (counterexample): `EventConverter` emits the terminal message-delta /
message-stop pair on a Metadata event even though no stop reason has been
recorded (the message-delta then carries a null stop reason) — the claim says
no terminal events are emitted on that pass. -/
theorem C2_counterexample :
    (EventConverter.new "msg_0" "model").stopReason = none ∧
    (EventConverter.convert (EventConverter.new "msg_0" "model") (.metadata none)).2 =
      some [("message_delta", Event.messageDelta none 0),
            ("message_stop", Event.messageStop)] := by
  decide

/-- C2 (amended): in both converters a MessageStop event emits nothing and only
records the mapped stop reason, and a terminal message-stopped event can only
be emitted while processing a Metadata event. In the providers stream loop the
terminal pair is emitted on Metadata exactly when a stop reason is pending
(and the pending reason is cleared and the loop concludes); `EventConverter`,
however, emits the terminal pair on every Metadata event, with a null stop
reason when none was recorded. -/
theorem C2_deferred_stop_reason (id model sig : String) (s : AnthropicStreamState)
    (c : EventConverter) (r : StopReason) (u : Option TokenUsage)
    (o : ConverseStreamOutput) :
    ((processAnthropicEvent id model sig s (.messageStop r)).2.1 = [] ∧
      (processAnthropicEvent id model sig s (.messageStop r)).1.stopReason =
        some (providersMapStopReason r)) ∧
    ((EventConverter.convert c (.messageStop r)).2 = none ∧
      (EventConverter.convert c (.messageStop r)).1.stopReason =
        (match r with
         | .endTurn => some "end_turn"
         | .maxTokens => some "max_tokens"
         | .stopSequence => some "stop_sequence"
         | .toolUse => some "tool_use"
         | .other => none)) ∧
    (s.stopReason = none → (processAnthropicEvent id model sig s (.metadata u)).2 =
      ([], false)) ∧
    (∀ reason, s.stopReason = some reason →
      (processAnthropicEvent id model sig s (.metadata u)).2 =
        ([.messageDelta (some reason)
            (match u with
             | some usage => ⟨usage.inputTokens, usage.outputTokens⟩
             | none => s.usageTracker),
          .messageStop], true) ∧
      (processAnthropicEvent id model sig s (.metadata u)).1.stopReason = none) ∧
    ((EventConverter.convert c (.metadata u)).2 =
      some [("message_delta",
              Event.messageDelta c.stopReason ((u.map (·.outputTokens)).getD 0)),
            ("message_stop", Event.messageStop)]) ∧
    (o.isMetadata = false →
      StreamEvent.messageStop ∉ (processAnthropicEvent id model sig s o).2.1 ∧
      ∀ l, (EventConverter.convert c o).2 = some l →
        ("message_stop", Event.messageStop) ∉ l) := by
  refine ⟨⟨?_, ?_⟩, ⟨?_, ?_⟩, ?_, ?_, ?_, ?_⟩
  · simp [processAnthropicEvent]
  · simp [processAnthropicEvent]
  · rcases r <;> simp [EventConverter.convert]
  · rcases r <;> simp [EventConverter.convert]
  · intro hnone
    rcases u with _ | usage <;> simp [processAnthropicEvent, hnone]
  · intro reason hsome
    rcases u with _ | usage <;> simp [processAnthropicEvent, hsome]
  · rcases u with _ | usage <;> simp [EventConverter.convert]
  · intro hnm
    exact ⟨providers_message_stop_only_on_metadata id model sig s o hnm,
           fun l hl => converter_message_stop_only_on_metadata c o hnm l hl⟩

/-- C2 (witness). -/
theorem C2_witness :
    (processAnthropicEvent "msg_0" "model" "sig_0" AnthropicStreamState.initial
        (.messageStop .endTurn)).2.1 = [] ∧
    (processAnthropicEvent "msg_0" "model" "sig_0"
        { AnthropicStreamState.initial with stopReason := some "end_turn" }
        (.metadata (some ⟨10, 2, 12⟩))).2 =
      ([.messageDelta (some "end_turn") ⟨10, 2⟩, .messageStop], true) := by
  refine ⟨(C2_deferred_stop_reason "msg_0" "model" "sig_0"
    AnthropicStreamState.initial (EventConverter.new "m" "m") .endTurn none
    .other).1.1, ?_⟩
  exact ((C2_deferred_stop_reason "msg_0" "model" "sig_0"
    { AnthropicStreamState.initial with stopReason := some "end_turn" }
    (EventConverter.new "m" "m") .endTurn (some ⟨10, 2, 12⟩)
    .other).2.2.2.1 "end_turn" rfl).1

/-! ## Claim C7: empty tool-use input fragments -/

/-- C7 (counterexample): an empty tool-use input fragment is not suppressed
anywhere — the delta translator maps it to an input-JSON-delta carrying the
empty string, the providers stream loop emits that delta, and `EventConverter`
emits it as well. -/
theorem C7_counterexample :
    bedrockContentBlockDeltaToContentBlockDelta (.toolUse "") =
      some (.inputJsonDelta "") ∧
    (processAnthropicEvent "msg_0" "model" "sig_0"
        { AnthropicStreamState.initial with startedContentBlocks := [0] }
        (.contentBlockDelta 0 (some (.toolUse "")))).2.1 =
      [StreamEvent.contentBlockDelta 0 (.inputJsonDelta "")] ∧
    (EventConverter.convert (EventConverter.new "msg_0" "model")
        (.contentBlockDelta 0 (some (.toolUse "")))).2 =
      some [("content_block_delta", Event.contentBlockDelta (.inputJsonDelta "") 0)] := by
  decide

/-- C7 (amended): a tool-use input fragment — empty or not — is translated to
an input-JSON-delta carrying the raw fragment and emitted like any other
delta: the delta translator always yields the fragment, the providers stream
loop emits exactly the translated delta for a started index, and the OpenAI
chunk helper forwards the fragment unconditionally; no empty-fragment
suppression exists. -/
theorem C7_empty_fragment_not_suppressed (id model sig fragment : String)
    (s : AnthropicStreamState) (i : Int) (h : i ∈ s.startedContentBlocks) :
    bedrockContentBlockDeltaToContentBlockDelta (.toolUse fragment) =
      some (.inputJsonDelta fragment) ∧
    (processAnthropicEvent id model sig s
        (.contentBlockDelta i (some (.toolUse fragment)))).2.1 =
      [StreamEvent.contentBlockDelta i (.inputJsonDelta fragment)] ∧
    toolUseBlockDeltaToToolCall fragment i =
      { id := none
        toolType := "function"
        function := some { name := none, arguments := some fragment }
        index := some i } := by
  exact ⟨rfl, by simp [processAnthropicEvent, h], rfl⟩

/-- C7 (witness). -/
theorem C7_witness :
    (processAnthropicEvent "msg_0" "model" "sig_0"
        { AnthropicStreamState.initial with startedContentBlocks := [1] }
        (.contentBlockDelta 1 (some (.toolUse "x")))).2.1 =
      [StreamEvent.contentBlockDelta 1 (.inputJsonDelta "x")] :=
  (C7_empty_fragment_not_suppressed "msg_0" "model" "sig_0" "x"
    { AnthropicStreamState.initial with startedContentBlocks := [1] } 1
    (by decide)).2.1

/-! ## Claim C3: rejection of non-streaming requests -/

/-- C3 (counterexample): the stream:false guard rejects through a plain
`anyhow` error, which `AppError::from` maps to status 500 (no SDK status to
preserve) — not the 400 the claim states. -/
theorem C3_counterexample :
    v1MessagesStreamCheck (some false) = .error (500, "Stream is set to false") ∧
    (500 : Nat) ≠ 400 := by
  exact ⟨rfl, by decide⟩

/-- C3 (amended): on either endpoint a request that sets stream to false is
rejected before any backend call — the guard returns early with the error
mapped by `AppError::from`, whose status is 500 (the rejection error carries
no upstream status) and whose message is the generic failure text; any other
stream value passes the guard. -/
theorem C3_stream_false_rejected (stream : Option Bool) :
    (stream = some false →
      v1MessagesStreamCheck stream = .error (500, "Stream is set to false") ∧
      chatCompletionsStreamCheck stream = .error (500, "Stream is set to false")) ∧
    (stream ≠ some false →
      v1MessagesStreamCheck stream = .ok () ∧
      chatCompletionsStreamCheck stream = .ok ()) := by
  constructor
  · intro h
    subst h
    exact ⟨rfl, rfl⟩
  · intro h
    simp [v1MessagesStreamCheck, chatCompletionsStreamCheck, h]

/-- C3 (witness). -/
theorem C3_witness :
    v1MessagesStreamCheck (some false) = .error (500, "Stream is set to false") ∧
    chatCompletionsStreamCheck (some true) = .ok () :=
  ⟨((C3_stream_false_rejected (some false)).1 rfl).1,
   ((C3_stream_false_rejected (some true)).2 (by decide)).2⟩

/-! ## Claim C8: the error mapper -/

/-- C8: the error mapper reuses a present (three-digit) upstream status
verbatim and defaults to 500 when none is available; the message prefers the
structured service-error message and falls back to the generic failure text.
In particular an upstream 429 maps to 429. -/
theorem C8_error_mapper (e : BackendFailure) (s : Nat) :
    (e.upstreamStatus = some s → 100 ≤ s → s ≤ 999 → (appErrorFrom e).1 = s) ∧
    (e.upstreamStatus = none → (appErrorFrom e).1 = 500) ∧
    (∀ m, e.serviceMessage = some m → (appErrorFrom e).2 = m) ∧
    (e.serviceMessage = none → (appErrorFrom e).2 = e.text) ∧
    (e.upstreamStatus = some 429 → (appErrorFrom e).1 = 429) := by
  refine ⟨?_, ?_, ?_, ?_, ?_⟩
  · intro h h1 h2
    simp [appErrorFrom, h, statusCodeFromU16, h1, h2]
  · intro h
    simp [appErrorFrom, h]
  · intro m h
    simp [appErrorFrom, h]
  · intro h
    simp [appErrorFrom, h]
  · intro h
    simp [appErrorFrom, h, statusCodeFromU16]

/-- C8 (witness). -/
theorem C8_witness :
    (appErrorFrom { upstreamStatus := some 429, serviceMessage := none,
                    text := "throttled" }) = (429, "throttled") ∧
    (appErrorFrom { upstreamStatus := none, serviceMessage := none,
                    text := "something broke" }).1 = 500 := by
  refine ⟨?_, ?_⟩
  · have h := C8_error_mapper
      { upstreamStatus := some 429, serviceMessage := none, text := "throttled" } 429
    have h1 := h.1 rfl (by decide) (by decide)
    have h2 := h.2.2.2.1 rfl
    exact Prod.ext h1 h2
  · exact (C8_error_mapper
      { upstreamStatus := none, serviceMessage := none, text := "something broke" }
      0).2.1 rfl

/-! ## Claim C10: the document placeholder text block -/

/-- C10: a user document block that translates successfully contributes
exactly two backend blocks — the document block immediately followed by a
synthetic text block containing a single space. -/
theorem C10_document_placeholder (source : DocumentSource) (db : DocumentBlock)
    (h : documentBlockTryFrom source = .ok db) :
    userContentTryFrom (.document source) = .ok (some [.document db, .text " "]) ∧
    ∀ l, userContentTryFrom (.document source) = .ok (some l) → l.length = 2 := by
  have key : userContentTryFrom (.document source) =
      .ok (some [.document db, .text " "]) := by
    simp only [userContentTryFrom]
    rw [h]
    rfl
  refine ⟨key, ?_⟩
  intro l hl
  rw [key] at hl
  cases hl
  rfl

/-- C10 (witness). -/
theorem C10_witness :
    userContentTryFrom (.document (.base64 "application/pdf" "")) =
      .ok (some [.document ⟨.pdf, "document", []⟩, .text " "]) :=
  (C10_document_placeholder (.base64 "application/pdf" "")
    ⟨.pdf, "document", []⟩ rfl).1

/-! ## Claim C4: ordering of translated user content blocks -/

/-- Whether a backend content block is a tool-result block. -/
def BedrockContentBlock.isToolResult : BedrockContentBlock → Bool
  | .toolResult _ => true
  | _ => false

/-- The ordering the claim asserts: every tool-result block precedes every
other block, relative order preserved within each group. -/
def toolResultsFirst (l : List BedrockContentBlock) : Prop :=
  l = l.filter (·.isToolResult) ++ l.filter (fun b => !b.isToolResult)

/-- Reference translation written from the claim's amended reading: each user
content block is translated in turn and the results are concatenated in the
original order, with no reordering. -/
def translateInOrder : List UserContent → Except String (List BedrockContentBlock)
  | [] => .ok []
  | c :: rest => do
    let hd ← userContentTryFrom c
    let tl ← translateInOrder rest
    .ok (hd.getD [] ++ tl)

/-- C4 (counterexample): a user message holding a text block followed by a
tool-result block translates to the blocks in their original order — the
tool-result block is not moved to the front, so the claimed ordering fails. -/
theorem C4_counterexample :
    userContentsTryFrom
        (.array [.text none "a", .toolResult none (.str "r") none "t1"]) =
      .ok [.text "a",
           .toolResult { toolUseId := "t1", content := [.text "r"], status := none }] ∧
    ¬ toolResultsFirst
        [.text "a",
         .toolResult { toolUseId := "t1", content := [.text "r"], status := none }] := by
  constructor
  · rfl
  · intro hcontra
    simp [toolResultsFirst, BedrockContentBlock.isToolResult, List.filter] at hcontra

/-- C4 (amended): the translation of a user content array performs no
reordering at all — it is the in-order concatenation of the per-block
translations (tool-result blocks stay exactly where the caller put them). -/
theorem C4_no_reordering (xs : List UserContent) :
    userContentsTryFrom (.array xs) = translateInOrder xs := by
  induction xs with
  | nil => rfl
  | cons c rest ih =>
    simp only [userContentsTryFrom, translateInOrder, List.mapM_cons] at ih ⊢
    cases hc : userContentTryFrom c with
    | error e =>
      simp only [hc, bind, Except.bind]
    | ok hd =>
      cases ht : rest.mapM userContentTryFrom with
      | error e =>
        simp only [ht, bind, Except.bind] at ih
        simp only [hc, ht, bind, Except.bind, pure, Except.pure, ← ih]
      | ok tl =>
        simp only [ht, bind, Except.bind] at ih
        simp only [hc, ht, bind, Except.bind, pure, Except.pure, ← ih]
        cases hd with
        | none => simp
        | some hdl => simp

/-! ## Claim C5: cache-control marker pairing -/

/-- C5: a translated block carrying a cache-control marker is immediately
followed by exactly one cache point in the translated output list, and a
block without a marker contributes no cache point: this holds for user text
and tool-result blocks (images and documents cannot carry a marker and never
produce one), for system text blocks, and for tool definitions. -/
theorem C5_cache_point_pairing (cc : CacheControl) (text toolUseId : String)
    (content : ToolResultContents) (isError : Option Bool)
    (rblocks : List ToolResultContentBlock)
    (hContent : toolResultContentsTryFrom content = .ok rblocks)
    (imageSource : ImageSource) (ib : ImageBlock)
    (hImage : imageBlockTryFrom imageSource = .ok ib)
    (documentSource : DocumentSource) (db : DocumentBlock)
    (hDocument : documentBlockTryFrom documentSource = .ok db)
    (tool : Tool) :
    userContentTryFrom (.text (some cc) text) = .ok (some [.text text, .cachePoint]) ∧
    userContentTryFrom (.text none text) = .ok (some [.text text]) ∧
    userContentTryFrom (.toolResult (some cc) content isError toolUseId) =
      .ok (some [.toolResult
        { toolUseId := toolUseId
          content := rblocks
          status := isError.map (fun e => if e then .error else .success) },
        .cachePoint]) ∧
    userContentTryFrom (.toolResult none content isError toolUseId) =
      .ok (some [.toolResult
        { toolUseId := toolUseId
          content := rblocks
          status := isError.map (fun e => if e then .error else .success) }]) ∧
    userContentTryFrom (.image imageSource) = .ok (some [.image ib]) ∧
    userContentTryFrom (.document documentSource) =
      .ok (some [.document db, .text " "]) ∧
    systemTryFrom (.text text (some cc)) = .ok [.text text, .cachePoint] ∧
    systemTryFrom (.text text none) = .ok [.text text] ∧
    (tool.cacheControl = some cc →
      toolTryFrom tool = .ok
        [.toolSpec tool.name
          (if tool.description.isEmpty then none else some tool.description)
          tool.inputSchema,
         .cachePoint]) ∧
    (tool.cacheControl = none →
      toolTryFrom tool = .ok
        [.toolSpec tool.name
          (if tool.description.isEmpty then none else some tool.description)
          tool.inputSchema]) := by
  refine ⟨rfl, rfl, ?_, ?_, ?_, ?_, rfl, rfl, ?_, ?_⟩
  · simp only [userContentTryFrom]
    rw [hContent]
    rfl
  · simp only [userContentTryFrom]
    rw [hContent]
    rfl
  · simp only [userContentTryFrom]
    rw [hImage]
    rfl
  · simp only [userContentTryFrom]
    rw [hDocument]
    rfl
  · intro h
    simp only [toolTryFrom, valueToDocument]
    rw [h]
    rfl
  · intro h
    simp only [toolTryFrom, valueToDocument]
    rw [h]

/-- C5 (witness). -/
theorem C5_witness :
    userContentTryFrom (.text (some ⟨"ephemeral"⟩) "cached text") =
      .ok (some [.text "cached text", .cachePoint]) ∧
    userContentTryFrom (.toolResult (some ⟨"ephemeral"⟩) (.str "result") none "t1") =
      .ok (some [.toolResult { toolUseId := "t1", content := [.text "result"],
                               status := none }, .cachePoint]) ∧
    systemTryFrom (.text "You are helpful" (some ⟨"ephemeral"⟩)) =
      .ok [.text "You are helpful", .cachePoint] ∧
    toolTryFrom { cacheControl := some ⟨"ephemeral"⟩, description := "Gets the weather",
                  inputSchema := .null, name := "get_weather" } =
      .ok [.toolSpec "get_weather" (some "Gets the weather") .null, .cachePoint] := by
  have h := C5_cache_point_pairing ⟨"ephemeral"⟩ "cached text" "t1" (.str "result")
    none [.text "result"] rfl (.base64 "image/png" "") ⟨.png, []⟩ rfl
    (.base64 "application/pdf" "") ⟨.pdf, "document", []⟩ rfl
    { cacheControl := some ⟨"ephemeral"⟩, description := "Gets the weather",
      inputSchema := .null, name := "get_weather" }
  have h2 := C5_cache_point_pairing ⟨"ephemeral"⟩ "You are helpful" "t1" (.str "result")
    none [.text "result"] rfl (.base64 "image/png" "") ⟨.png, []⟩ rfl
    (.base64 "application/pdf" "") ⟨.pdf, "document", []⟩ rfl
    { cacheControl := some ⟨"ephemeral"⟩, description := "Gets the weather",
      inputSchema := .null, name := "get_weather" }
  exact ⟨h.1, h.2.2.1, h2.2.2.2.2.2.2.1, h.2.2.2.2.2.2.2.2.1 rfl⟩

/-! ## Claim C6: thinking blocks on the inbound path -/

/-- The `content.rs` conversion yields a reasoning-content block only for a
thinking block: every non-thinking block that converts successfully converts
to something else. -/
theorem requestContentBlock_not_reasoning (block : RequestContentBlock)
    (hnt : block.isThinking = false) (b : BedrockContentBlock)
    (h : requestContentBlockTryFrom block = .ok b) :
    b.isReasoningContent = false := by
  cases block with
  | text t cc =>
    simp only [requestContentBlockTryFrom, Except.ok.injEq] at h
    simp [← h, BedrockContentBlock.isReasoningContent]
  | image source cc =>
    rcases himg : (imageBlockTryFrom source).toOption with _ | ib <;>
      simp only [requestContentBlockTryFrom, himg, Except.ok.injEq,
        reduceCtorEq] at h
    simp [← h, BedrockContentBlock.isReasoningContent]
  | document source title cc =>
    rcases hb : base64Decode source.data with _ | bytes <;>
      rcases hf : contentDocumentFormatOfMediaType source.mediaType with _ | fmt <;>
      rcases title with _ | name <;>
      simp only [requestContentBlockTryFrom, hb, hf, bind, Except.bind,
        Except.ok.injEq, reduceCtorEq] at h
    simp [← h, BedrockContentBlock.isReasoningContent]
  | toolUse tid n input =>
    simp only [requestContentBlockTryFrom, Except.ok.injEq] at h
    simp [← h, BedrockContentBlock.isReasoningContent]
  | toolResult tid content isError =>
    rcases htr : toolResultContentsTryFrom content with e | rblocks <;>
      simp only [requestContentBlockTryFrom, htr, bind, Except.bind,
        Except.ok.injEq, reduceCtorEq] at h
    simp [← h, BedrockContentBlock.isReasoningContent]
  | thinking t sg =>
    simp [RequestContentBlock.isThinking] at hnt

/-- The translation loop of `message.rs` preserves the absence of
reasoning-content blocks. -/
theorem foldl_messageBlockStep_no_reasoning (blocks : List RequestContentBlock) :
    ∀ acc, (∀ b ∈ acc, b.isReasoningContent = false) →
      ∀ b ∈ blocks.foldl messageBlockStep acc, b.isReasoningContent = false := by
  induction blocks with
  | nil =>
    intro acc hacc
    simpa using hacc
  | cons c rest ih =>
    intro acc hacc
    simp only [List.foldl_cons]
    apply ih
    intro b hb
    unfold messageBlockStep at hb
    by_cases hth : c.isThinking
    · rw [if_pos hth] at hb
      exact hacc b hb
    · rw [if_neg hth] at hb
      cases hok : requestContentBlockTryFrom c with
      | error e =>
        rw [hok] at hb
        exact hacc b hb
      | ok bb =>
        rw [hok] at hb
        have hbb := requestContentBlock_not_reasoning c (by simpa using hth) bb hok
        by_cases hcc : c.hasCacheControl
        · simp only [hcc, if_true] at hb
          rcases List.mem_append.mp hb with hb1 | hb2
          · rcases List.mem_append.mp hb1 with hb3 | hb4
            · exact hacc b hb3
            · rw [List.mem_singleton.mp hb4]
              exact hbb
          · rw [List.mem_singleton.mp hb2]
            rfl
        · simp only [hcc, if_false] at hb
          rcases List.mem_append.mp hb with hb1 | hb2
          · exact hacc b hb1
          · rw [List.mem_singleton.mp hb2]
            exact hbb

/-- C6 (counterexample): a caller-supplied thinking block in an assistant
content array is forwarded to the backend — the `AssistantContents` conversion
translates it into a reasoning-content block (and moves it to the front). -/
theorem C6_counterexample :
    assistantContentsTryFrom (.array [.thinking "let me think" "sig123"]) =
      .ok [.reasoningContent "let me think" (some "sig123")] ∧
    ((assistantContentsTryFrom
        (.array [.thinking "let me think" "sig123"])).toOption.getD []).any
      (·.isReasoningContent) = true := by
  exact ⟨rfl, rfl⟩

/-- C6 (amended): on the `message.rs` conversion path caller-supplied thinking
blocks are skipped, so the translated backend message contains no
reasoning-content block at all; however, on the `AssistantContent` conversion
path a thinking block is translated into a backend reasoning-content block
carrying its text and signature (and is forwarded). -/
theorem C6_thinking_skipped_on_message_path (m : Message) (bm : BedrockMessage)
    (h : messageTryFrom m = .ok bm) :
    (∀ b ∈ bm.content, b.isReasoningContent = false) ∧
    (∀ t sg, assistantContentTryFrom (.thinking t sg) =
      .ok [.reasoningContent t (some sg)]) := by
  constructor
  · have hcontent : bm.content =
        match m.content with
        | .str s => [BedrockContentBlock.text s]
        | .blocks blocks => messageBlocksToBedrock blocks := by
      cases h
      rfl
    rw [hcontent]
    cases m.content with
    | str s =>
      intro b hb
      rw [List.mem_singleton.mp hb]
      rfl
    | blocks blocks =>
      exact foldl_messageBlockStep_no_reasoning blocks [] (by simp)
  · intro t sg
    rfl

/-- C6 (witness): the assistant message holding a thinking block and a text
block converts to a backend message whose content has no reasoning block. -/
theorem C6_witness :
    ((BedrockMessage.mk .assistant [.text "the actual response"]).content.all
      (fun b => !b.isReasoningContent)) = true := by
  have h := (C6_thinking_skipped_on_message_path
    { role := .assistant
      content := .blocks
        [.thinking "internal reasoning" (some "sig_123"),
         .text "the actual response" none] }
    ⟨.assistant, [.text "the actual response"]⟩ rfl).1
  simp only [List.all_eq_true]
  intro b hb
  simp [h b hb]

/-! ## Claim C9: client-side tool-call accumulation -/

/-- C9: one accumulation step opens a new logical call exactly when the
fragment carries a non-null id different from the current one (the fragment's
updates then apply to the fresh call); a fragment without a new id extends the
current (last) call, erroring only when no call exists yet; a fragment's name
overwrites the call name and its arguments are appended byte-for-byte; on
completion a call whose accumulated arguments are empty or all-whitespace gets
the literal two-character object string, all others are untouched; and the
full accumulator is the fold of the step followed by that per-call
completion. -/
theorem C9_tool_call_accumulation (calls : List RequestToolCall)
    (currentId : Option String) (c : ResponseToolCall) (i : String)
    (toolCall : RequestToolCall) :
    (c.id = some i → currentId ≠ some i →
      accStep (calls, currentId) c =
        .ok (calls ++ [applyFragment (newRequestToolCall i) c.function], some i)) ∧
    ((c.id = none ∨ c.id = currentId) → ∀ last, calls.getLast? = some last →
      accStep (calls, currentId) c =
        .ok (calls.dropLast ++ [applyFragment last c.function], currentId)) ∧
    ((c.id = none ∨ c.id = currentId) → calls = [] →
      accStep (calls, currentId) c = .error "Tool call chunk missing required ID") ∧
    (∀ n a, applyFragment toolCall (some { name := some n, arguments := some a }) =
      { toolCall with function :=
          { name := n, arguments := toolCall.function.arguments ++ a } }) ∧
    (∀ a, applyFragment toolCall (some { name := none, arguments := some a }) =
      { toolCall with function :=
          { toolCall.function with
              arguments := toolCall.function.arguments ++ a } }) ∧
    (∀ n, applyFragment toolCall (some { name := some n, arguments := none }) =
      { toolCall with function := { toolCall.function with name := n } }) ∧
    (applyFragment toolCall none = toolCall) ∧
    (trimIsEmpty toolCall.function.arguments = true →
      finalizeToolCall toolCall =
        { toolCall with function :=
            { toolCall.function with arguments := "\x7b\x7d" } }) ∧
    (trimIsEmpty toolCall.function.arguments = false →
      finalizeToolCall toolCall = toolCall) ∧
    (∀ cs : List ResponseToolCall, ∀ acc : List RequestToolCall × Option String,
      cs.foldlM accStep ([], none) = .ok acc →
      responseToolCallsToRequestToolCalls cs = .ok (acc.1.map finalizeToolCall)) := by
  refine ⟨?_, ?_, ?_, ?_, ?_, ?_, ?_, ?_, ?_, ?_⟩
  · intro hid hne
    simp only [accStep, hid]
    rw [if_neg (by exact fun hcontra => hne hcontra)]
    rw [List.getLast?_concat, List.dropLast_concat]
  · intro hid last hlast
    rcases hid with hid | hid
    · simp only [accStep, hid, hlast]
    · rcases hcur : currentId with _ | cur
      · rw [hcur] at hid
        simp only [accStep, hid, hlast]
      · rw [hcur] at hid
        simp [accStep, hid, hlast]
  · intro hid hnil
    subst hnil
    rcases hid with hid | hid
    · simp only [accStep, hid, List.getLast?_nil]
    · rcases hcur : currentId with _ | cur
      · rw [hcur] at hid
        simp only [accStep, hid, List.getLast?_nil]
      · rw [hcur] at hid
        simp [accStep, hid]
  · intro n a
    rfl
  · intro a
    rfl
  · intro n
    rfl
  · rfl
  · intro h
    simp [finalizeToolCall, h]
  · intro h
    simp [finalizeToolCall, h]
  · intro cs acc hfold
    simp only [responseToolCallsToRequestToolCalls, hfold, bind, Except.bind]

/-- C9 (witness): the fragments of the spec's own example — an id-opening
fragment naming the call, then two argument fragments without ids — reassemble
into one call with the concatenated arguments, and a call accumulated with no
arguments finalizes to the literal empty-object string. -/
theorem C9_witness :
    accStep ([], none)
        { id := some "call_1", toolType := "function",
          function := some { name := some "f", arguments := none },
          index := some 0 } =
      .ok ([applyFragment (newRequestToolCall "call_1")
              (some { name := some "f", arguments := none })], some "call_1") ∧
    finalizeToolCall { id := "call_1", toolType := "", function := { name := "f", arguments := " " } } =
      { id := "call_1", toolType := "", function := { name := "f", arguments := "\x7b\x7d" } } ∧
    responseToolCallsToRequestToolCalls
        [{ id := some "call_1", toolType := "function",
           function := some { name := some "f", arguments := none }, index := some 0 }] =
      .ok ([({ id := "call_1", toolType := "",
               function := { name := "f", arguments := "" } } : RequestToolCall)].map
        finalizeToolCall) := by
  refine ⟨?_, ?_, ?_⟩
  · exact (C9_tool_call_accumulation [] none
      { id := some "call_1", toolType := "function",
        function := some { name := some "f", arguments := none }, index := some 0 }
      "call_1" (newRequestToolCall "x")).1 rfl (by simp)
  · have h := (C9_tool_call_accumulation [] none
      { id := none, toolType := "", function := none, index := none } ""
      { id := "call_1", toolType := "", function := { name := "f", arguments := " " } }).2.2.2.2.2.2.2.1
      (by rfl)
    simpa using h
  · exact (C9_tool_call_accumulation [] none
      { id := none, toolType := "", function := none, index := none } ""
      (newRequestToolCall "x")).2.2.2.2.2.2.2.2.2
      [{ id := some "call_1", toolType := "function",
         function := some { name := some "f", arguments := none }, index := some 0 }]
      ([{ id := "call_1", toolType := "", function := { name := "f", arguments := "" } }],
        some "call_1")
      (by rfl)

end LLMProxy
